import Mathlib

/-!
Verification development for the CKAViewer webapp (`src/webapp/script.js`).

The script is a browser flashcard viewer.  Its session state is a handful of
module-level globals (`questionsData`, `currentMode`, `currentIndex`,
`shuffledIndices`) plus the DOM state of the answer section (the `visible`
class on `answerSection` and the contents of the `questionImages` /
`answerImages` containers).  We embed that state as the structure `AppState`
and each event handler as a state transformer, translated line by line from
the source.  Randomness (`Math.random`) is modelled by passing in the drawn
values explicitly: the Fisher–Yates loop receives a function `rand` giving
the index drawn at each loop iteration, and the random-jump button receives
the drawn index.
-/

/-- One element of a record's `images` array: `type` classifies the image as a
question-side or answer-side image, `format` is the optional encoding name
(the source defaults it to `"png"` when absent or falsy), `base64` the
payload. -/
structure ImageAsset where
  type : String
  format : Option String
  base64 : String
deriving DecidableEq, Repr

/-- One question record of the uploaded JSON dataset. `images` is `none` when
the field is absent and `some l` when it is an array `l`. -/
structure QuestionRecord where
  question_no : Int
  question : String
  answer : String
  has_images : Bool
  images : Option (List ImageAsset)
deriving DecidableEq, Repr

/-- The two display modes selected by the mode buttons (`data-mode` is either
`"basic"` or `"exam"`). -/
inductive Mode where
  | basic
  | exam
deriving DecidableEq, Repr

/-- The data URI the source builds for an image:
`data:image/${imageData.format || 'png'};base64,${imageData.base64}`.
`format || 'png'` falls back to `"png"` both when `format` is absent and when
it is the empty string (falsy). -/
def imageSrc (imageData : ImageAsset) : String :=
  let fmt := match imageData.format with
    | none => "png"
    | some f => if f = "" then "png" else f
  "data:image/" ++ fmt ++ ";base64," ++ imageData.base64

/-- One `<img>` container appended to an image area: the asset it shows, its
1-based ordinal used in the alt text and caption (`index + 1` in the
`forEach`), and the data URI assigned to `img.src`. -/
structure RenderedImage where
  asset : ImageAsset
  ordinal : Nat
  src : String
deriving DecidableEq, Repr

/-- The `forEach` body shared by `displayQuestionImages` and
`displayAnswerImages`: each asset of the filtered list becomes a container
labelled with its 1-based index. -/
def renderImageContainers (imgs : List ImageAsset) : List RenderedImage :=
  imgs.enum.map (fun p => { asset := p.2, ordinal := p.1 + 1, src := imageSrc p.2 })

/-- `displayQuestionImages(question)`: clears the container, returns early
when `!question.has_images || !question.images || question.images.length === 0`,
otherwise renders the images whose `type` is `'question'`, in order. -/
def displayQuestionImages (question : QuestionRecord) : List RenderedImage :=
  if !question.has_images || question.images.isNone || (question.images.getD []).isEmpty then
    []
  else
    let questionImageData := (question.images.getD []).filter (fun img => img.type == "question")
    renderImageContainers questionImageData

/-- `displayAnswerImages(question)`: same guard as `displayQuestionImages`,
but renders the images whose `type` is `'answer'`. -/
def displayAnswerImages (question : QuestionRecord) : List RenderedImage :=
  if !question.has_images || question.images.isNone || (question.images.getD []).isEmpty then
    []
  else
    let answerImageData := (question.images.getD []).filter (fun img => img.type == "answer")
    renderImageContainers answerImageData

/-- The destructuring swap `[array[i], array[j]] = [array[j], array[i]]`.
In the source both indices are always in range (`i ≥ 1` and
`j = Math.floor(Math.random() * (i + 1)) ≤ i < length`); out-of-range
indices are modelled as leaving the list unchanged. -/
def listSwap {α : Type} (l : List α) (i j : Nat) : List α :=
  match l[i]?, l[j]? with
  | some a, some b => (l.set i b).set j a
  | _, _ => l

/-- The loop of `shuffleArray`: `for (let i = array.length - 1; i > 0; i--)`
swaps position `i` with position `rand i` (in the source
`rand i = Math.floor(Math.random() * (i + 1))`, a uniform draw from `[0, i]`).
The first argument is the current value of the loop counter `i`. -/
def shuffleLoop {α : Type} (rand : Nat → Nat) : Nat → List α → List α
  | 0, arr => arr
  | i + 1, arr => shuffleLoop rand i (listSwap arr (i + 1) (rand (i + 1)))

/-- `shuffleArray(array)`: Fisher–Yates over the whole list, the per-step
draws supplied by `rand`. -/
def shuffleArray {α : Type} (rand : Nat → Nat) (arr : List α) : List α :=
  shuffleLoop rand (arr.length - 1) arr

theorem cons_set_perm {α : Type} :
    ∀ (l : List α) (m : Nat) (b x : α), l[m]? = some b →
      List.Perm (b :: l.set m x) (x :: l) := by
  intro l
  induction l with
  | nil => intro m b x h; simp at h
  | cons c t ih =>
    intro m b x h
    cases m with
    | zero =>
      simp at h
      subst h
      exact List.Perm.swap x c t
    | succ k =>
      simp at h
      have h1 : List.Perm (b :: c :: t.set k x) (c :: b :: t.set k x) :=
        List.Perm.swap c b (t.set k x)
      have h2 : List.Perm (c :: b :: t.set k x) (c :: x :: t) :=
        List.Perm.cons c (ih k b x h)
      have h3 : List.Perm (c :: x :: t) (x :: c :: t) := List.Perm.swap x c t
      exact (h1.trans h2).trans h3

theorem set_set_perm {α : Type} :
    ∀ (l : List α) (i j : Nat) (a b : α), l[i]? = some a → l[j]? = some b →
      List.Perm ((l.set i b).set j a) l := by
  intro l
  induction l with
  | nil => intro i j a b hi _; simp at hi
  | cons c t ih =>
    intro i j a b hi hj
    cases i with
    | zero =>
      simp at hi
      subst hi
      cases j with
      | zero =>
        simp at hj
        subst hj
        simp
      | succ k =>
        simp at hj
        exact cons_set_perm t k b c hj
    | succ m =>
      simp at hi
      cases j with
      | zero =>
        simp at hj
        subst hj
        exact cons_set_perm t m a c hi
      | succ k =>
        simp at hj
        exact List.Perm.cons c (ih m k a b hi hj)

theorem listSwap_perm {α : Type} (l : List α) (i j : Nat) :
    List.Perm (listSwap l i j) l := by
  unfold listSwap
  cases hi : l[i]? with
  | none => exact List.Perm.refl l
  | some a =>
    cases hj : l[j]? with
    | none => exact List.Perm.refl l
    | some b => exact set_set_perm l i j a b hi hj

theorem shuffleLoop_perm {α : Type} (rand : Nat → Nat) :
    ∀ (i : Nat) (arr : List α), List.Perm (shuffleLoop rand i arr) arr := by
  intro i
  induction i with
  | zero => intro arr; exact List.Perm.refl arr
  | succ k ih =>
    intro arr
    exact (ih (listSwap arr (k + 1) (rand (k + 1)))).trans
      (listSwap_perm arr (k + 1) (rand (k + 1)))

theorem shuffleArray_perm {α : Type} (rand : Nat → Nat) (arr : List α) :
    List.Perm (shuffleArray rand arr) arr :=
  shuffleLoop_perm rand (arr.length - 1) arr

/-- The order imposed by `initializeApp`'s comparator
`(a, b) => a.question_no - b.question_no`: it puts `a` before `b` exactly when
`a.question_no ≤ b.question_no`. -/
def qnoLE (a b : QuestionRecord) : Prop := a.question_no ≤ b.question_no

instance : DecidableRel qnoLE :=
  fun a b => inferInstanceAs (Decidable (a.question_no ≤ b.question_no))

instance : IsTotal QuestionRecord qnoLE :=
  ⟨fun a b => Int.le_total a.question_no b.question_no⟩

instance : IsTrans QuestionRecord qnoLE :=
  ⟨fun _ _ _ h1 h2 => le_trans h1 h2⟩

/-- `questionsData.sort((a, b) => a.question_no - b.question_no)`.
`Array.prototype.sort` is a stable sort, so any stable sort under the same
comparator produces the same list; `List.insertionSort` is one. -/
def sortByQuestionNo (l : List QuestionRecord) : List QuestionRecord :=
  l.insertionSort qnoLE

/-- The session state of the script: the four module-level globals plus the
DOM state the claims are about.  `answerVisible` is whether `answerSection`
carries the `visible` class; `questionImages` and `answerImages` are the
contents of the two image containers. -/
structure AppState where
  questionsData : List QuestionRecord
  currentMode : Mode
  currentIndex : Nat
  shuffledIndices : List Nat
  answerVisible : Bool
  questionImages : List RenderedImage
  answerImages : List RenderedImage
deriving DecidableEq, Repr

/-- The globals' initial values: `questionsData = []`, `currentMode = 'basic'`,
`currentIndex = 0`, `shuffledIndices = []`; the answer section starts hidden
and both image containers empty. -/
def initialState : AppState :=
  { questionsData := []
    currentMode := Mode.basic
    currentIndex := 0
    shuffledIndices := []
    answerVisible := false
    questionImages := []
    answerImages := [] }

/-- The index expression appearing verbatim in `showCurrentQuestion` (line 160)
and `toggleAnswer` (line 297):
`currentMode === 'basic' ? currentIndex : shuffledIndices[currentIndex]`.
An out-of-range exam-mode read would be `undefined` in the source and crash
the handler; it is modelled with default `0` and shown unreachable from
loaded states. -/
def currentQuestionIdx (s : AppState) : Nat :=
  match s.currentMode with
  | Mode.basic => s.currentIndex
  | Mode.exam => s.shuffledIndices.getD s.currentIndex 0

/-- `showCurrentQuestion()`: returns early when the dataset is empty;
otherwise renders the record at `currentQuestionIdx` — question images via
`displayQuestionImages`, answer section hidden
(`answerSection.classList.remove('visible')`) and the answer-image container
cleared (`answerImages.innerHTML = ''`).  A missing record (out-of-range
index) would throw in the source before mutating anything; that branch
returns the state unchanged and is unreachable from loaded states. -/
def showCurrentQuestion (s : AppState) : AppState :=
  if s.questionsData.length = 0 then s
  else
    match s.questionsData[currentQuestionIdx s]? with
    | none => s
    | some question =>
      { s with
        questionImages := displayQuestionImages question
        answerVisible := false
        answerImages := [] }

/-- `switchMode(mode)`: sets `currentMode`, resets `currentIndex` to 0, and
re-renders via `showCurrentQuestion`. -/
def switchMode (mode : Mode) (s : AppState) : AppState :=
  showCurrentQuestion { s with currentMode := mode, currentIndex := 0 }

/-- `navigateQuestion(direction)`: `newIndex = currentIndex + direction`;
only when `newIndex >= 0 && newIndex < questionsData.length` does it commit
the new index and re-render; otherwise nothing happens. -/
def navigateQuestion (direction : Int) (s : AppState) : AppState :=
  let newIndex : Int := (s.currentIndex : Int) + direction
  if 0 ≤ newIndex ∧ newIndex < (s.questionsData.length : Int) then
    showCurrentQuestion { s with currentIndex := newIndex.toNat }
  else s

/-- `showRandomQuestion()`: sets `currentIndex` to
`Math.floor(Math.random() * questionsData.length)` — a draw `r` with
`r < questionsData.length` whenever the dataset is non-empty — and
re-renders. -/
def showRandomQuestion (r : Nat) (s : AppState) : AppState :=
  showCurrentQuestion { s with currentIndex := r }

/-- `toggleAnswer()`: if the answer is visible, hide it and clear the
answer-image container; otherwise show it and render the current record's
answer images.  As in `showCurrentQuestion`, a missing record would throw in
the source after the `visible` class was added; the `none` branch keeps the
container as the source leaves it and is unreachable from loaded states. -/
def toggleAnswer (s : AppState) : AppState :=
  if s.answerVisible then
    { s with answerVisible := false, answerImages := [] }
  else
    match s.questionsData[currentQuestionIdx s]? with
    | none => { s with answerVisible := true }
    | some question =>
      { s with answerVisible := true, answerImages := displayAnswerImages question }

/-- `initializeApp()`: sorts `questionsData` ascending by `question_no`,
rebuilds `shuffledIndices` as a Fisher–Yates shuffle of
`Array.from({length}, (_, i) => i)`, resets `currentIndex` to 0 and renders
the first question.  It does not touch `currentMode`. -/
def initializeApp (rand : Nat → Nat) (s : AppState) : AppState :=
  let sorted := sortByQuestionNo s.questionsData
  let shuffled := shuffleArray rand (List.range sorted.length)
  showCurrentQuestion
    { s with
      questionsData := sorted
      shuffledIndices := shuffled
      currentIndex := 0 }

/-- Outcome of `JSON.parse` on the uploaded file, as far as the handler
distinguishes it: either the parse throws, or it yields an array of records.
(A parse yielding a non-array value behaves like the empty-array case below:
it is assigned to `questionsData` before the `Array.isArray` check rejects
it.) -/
inductive UploadInput where
  | parseFailure
  | parsedArray (records : List QuestionRecord)

/-- `handleFileUpload`'s `reader.onload` body: `questionsData = JSON.parse(...)`
is assigned *before* validation, so a parsed-but-invalid payload has already
overwritten the dataset when the alert fires; only a throwing parse leaves
the globals untouched.  A valid (non-empty array) payload proceeds to
`initializeApp`. -/
def handleFileUpload (input : UploadInput) (rand : Nat → Nat) (s : AppState) : AppState :=
  match input with
  | UploadInput.parseFailure => s
  | UploadInput.parsedArray records =>
    let s1 := { s with questionsData := records }
    if records.length > 0 then initializeApp rand s1 else s1

/-- Whether the upload handler reports an error to the user: the catch-branch
alert for a throwing parse, or the `올바른 JSON 형식이 아닙니다` alert when the
parsed value fails the non-empty-array check. -/
def uploadShowsAlert : UploadInput → Bool
  | UploadInput.parseFailure => true
  | UploadInput.parsedArray records => records.length = 0

/-- The user-triggerable operations of a session, each carrying the
external randomness it consumes. -/
inductive Op where
  | upload (input : UploadInput) (rand : Nat → Nat)
  | mode (m : Mode)
  | nav (direction : Int)
  | toggle
  | randomJump (r : Nat)

/-- Dispatch of one operation to its handler. -/
def step : Op → AppState → AppState
  | Op.upload input rand, s => handleFileUpload input rand s
  | Op.mode m, s => switchMode m s
  | Op.nav d, s => navigateQuestion d s
  | Op.toggle, s => toggleAnswer s
  | Op.randomJump r, s => showRandomQuestion r s

/-- Whether an operation is a file upload (the only operation that can touch
`shuffledIndices` or `questionsData`). -/
def Op.isUpload : Op → Bool
  | Op.upload _ _ => true
  | _ => false

/-- Run a sequence of operations left to right. -/
def runOps (ops : List Op) (s : AppState) : AppState :=
  ops.foldl (fun s op => step op s) s

theorem showCQ_questionsData (s : AppState) :
    (showCurrentQuestion s).questionsData = s.questionsData := by
  unfold showCurrentQuestion
  split
  · rfl
  · split <;> rfl

theorem showCQ_currentMode (s : AppState) :
    (showCurrentQuestion s).currentMode = s.currentMode := by
  unfold showCurrentQuestion
  split
  · rfl
  · split <;> rfl

theorem showCQ_currentIndex (s : AppState) :
    (showCurrentQuestion s).currentIndex = s.currentIndex := by
  unfold showCurrentQuestion
  split
  · rfl
  · split <;> rfl

theorem showCQ_shuffledIndices (s : AppState) :
    (showCurrentQuestion s).shuffledIndices = s.shuffledIndices := by
  unfold showCurrentQuestion
  split
  · rfl
  · split <;> rfl

theorem toggleAnswer_visible (s : AppState) :
    (toggleAnswer s).answerVisible = !s.answerVisible := by
  unfold toggleAnswer
  cases h : s.answerVisible with
  | true => simp [h]
  | false =>
    simp only [h, Bool.false_eq_true, if_false, Bool.not_false]
    split <;> rfl

/-- The dataset `handleFileUpload` leaves behind on a valid (non-empty array)
upload: the parsed records sorted by `question_no`. -/
theorem load_questionsData (s : AppState) (rand : Nat → Nat) (D : List QuestionRecord)
    (hD : 0 < D.length) :
    (handleFileUpload (UploadInput.parsedArray D) rand s).questionsData
      = sortByQuestionNo D := by
  simp [handleFileUpload, if_pos hD, initializeApp, showCQ_questionsData]

/-- The traversal order `handleFileUpload` leaves behind on a valid upload:
the Fisher–Yates shuffle of `[0, …, D.length - 1]`. -/
theorem load_shuffledIndices (s : AppState) (rand : Nat → Nat) (D : List QuestionRecord)
    (hD : 0 < D.length) :
    (handleFileUpload (UploadInput.parsedArray D) rand s).shuffledIndices
      = shuffleArray rand (List.range (sortByQuestionNo D).length) := by
  simp [handleFileUpload, if_pos hD, initializeApp, showCQ_shuffledIndices]

theorem load_currentIndex (s : AppState) (rand : Nat → Nat) (D : List QuestionRecord)
    (hD : 0 < D.length) :
    (handleFileUpload (UploadInput.parsedArray D) rand s).currentIndex = 0 := by
  simp [handleFileUpload, if_pos hD, initializeApp, showCQ_currentIndex]

theorem load_currentMode (s : AppState) (rand : Nat → Nat) (D : List QuestionRecord)
    (hD : 0 < D.length) :
    (handleFileUpload (UploadInput.parsedArray D) rand s).currentMode = s.currentMode := by
  simp [handleFileUpload, if_pos hD, initializeApp, showCQ_currentMode]

theorem sortByQuestionNo_perm (D : List QuestionRecord) :
    List.Perm (sortByQuestionNo D) D :=
  List.perm_insertionSort qnoLE D

theorem sortByQuestionNo_length (D : List QuestionRecord) :
    (sortByQuestionNo D).length = D.length :=
  (sortByQuestionNo_perm D).length_eq

/-- Every operation other than a file upload leaves `shuffledIndices`
untouched: mode switches, navigation, answer toggling and random jumps never
reshuffle. -/
theorem step_shuffledIndices (op : Op) (s : AppState) (h : op.isUpload = false) :
    (step op s).shuffledIndices = s.shuffledIndices := by
  cases op with
  | upload input rand => simp [Op.isUpload] at h
  | mode m => simp [step, switchMode, showCQ_shuffledIndices]
  | nav d =>
    simp only [step, navigateQuestion]
    split
    · rw [showCQ_shuffledIndices]
    · rfl
  | toggle =>
    simp only [step, toggleAnswer]
    split
    · rfl
    · split <;> rfl
  | randomJump r => simp [step, showRandomQuestion, showCQ_shuffledIndices]

theorem runOps_shuffledIndices (ops : List Op) (s : AppState)
    (h : ∀ op ∈ ops, op.isUpload = false) :
    (runOps ops s).shuffledIndices = s.shuffledIndices := by
  induction ops generalizing s with
  | nil => rfl
  | cons op rest ih =>
    have h1 : (runOps (op :: rest) s) = runOps rest (step op s) := rfl
    rw [h1, ih (step op s) (fun o ho => h o (List.mem_cons_of_mem _ ho)),
      step_shuffledIndices op s (h op (List.mem_cons_self _ _))]

theorem navigateQuestion_questionsData (d : Int) (s : AppState) :
    (navigateQuestion d s).questionsData = s.questionsData := by
  simp only [navigateQuestion]
  split
  · rw [showCQ_questionsData]
  · rfl

theorem navigateQuestion_bound (d : Int) (s : AppState)
    (h : s.currentIndex < s.questionsData.length) :
    (navigateQuestion d s).currentIndex < (navigateQuestion d s).questionsData.length := by
  simp only [navigateQuestion]
  by_cases hc : 0 ≤ (s.currentIndex : Int) + d
    ∧ (s.currentIndex : Int) + d < (s.questionsData.length : Int)
  · rw [if_pos hc, showCQ_currentIndex, showCQ_questionsData]
    dsimp only
    obtain ⟨hc1, hc2⟩ := hc
    omega
  · rw [if_neg hc]
    exact h

/-- `navigateQuestion` folded over a list of direction draws. -/
def navRun (ds : List Int) (s : AppState) : AppState :=
  ds.foldl (fun s d => navigateQuestion d s) s

theorem navRun_bound (ds : List Int) (s : AppState)
    (h : s.currentIndex < s.questionsData.length) :
    (navRun ds s).currentIndex < (navRun ds s).questionsData.length := by
  induction ds generalizing s with
  | nil => exact h
  | cons d rest ih => exact ih (navigateQuestion d s) (navigateQuestion_bound d s h)

/-- Invariant tying the answer section's visibility to the answer-image
container: whenever the section is hidden the container is empty. -/
def answerInvariant (s : AppState) : Prop :=
  s.answerVisible = false → s.answerImages = []

theorem answerInvariant_showCQ (s : AppState) (h : answerInvariant s) :
    answerInvariant (showCurrentQuestion s) := by
  unfold showCurrentQuestion
  split
  · exact h
  · split
    · exact h
    · intro _
      rfl

theorem answerInvariant_step (op : Op) (s : AppState) (h : answerInvariant s) :
    answerInvariant (step op s) := by
  cases op with
  | upload input rand =>
    cases input with
    | parseFailure => exact h
    | parsedArray records =>
      show answerInvariant (handleFileUpload (UploadInput.parsedArray records) rand s)
      simp only [handleFileUpload]
      by_cases hlen : records.length > 0
      · rw [if_pos hlen]
        exact answerInvariant_showCQ _ h
      · rw [if_neg hlen]
        exact h
  | mode m => exact answerInvariant_showCQ _ h
  | nav d =>
    show answerInvariant (navigateQuestion d s)
    simp only [navigateQuestion]
    split
    · exact answerInvariant_showCQ _ h
    · exact h
  | toggle =>
    show answerInvariant (toggleAnswer s)
    unfold toggleAnswer
    split
    · intro _
      rfl
    · split
      · intro hfalse
        simp at hfalse
      · intro hfalse
        simp at hfalse
  | randomJump r => exact answerInvariant_showCQ _ h

theorem renderImageContainers_assets (l : List ImageAsset) :
    (renderImageContainers l).map RenderedImage.asset = l := by
  unfold renderImageContainers
  rw [List.map_map]
  exact List.enum_map_snd l

theorem renderImageContainers_ordinals (l : List ImageAsset) :
    (renderImageContainers l).map RenderedImage.ordinal = List.range' 1 l.length := by
  unfold renderImageContainers
  rw [List.map_map]
  have h1 : (RenderedImage.ordinal ∘ fun p : Nat × ImageAsset =>
      RenderedImage.mk p.2 (p.1 + 1) (imageSrc p.2)) = fun p : Nat × ImageAsset => p.1 + 1 :=
    rfl
  rw [h1]
  have h2 : (fun p : Nat × ImageAsset => p.1 + 1)
      = (fun n => 1 + n) ∘ (Prod.fst : Nat × ImageAsset → Nat) := by
    funext p
    simp [Nat.add_comm]
  rw [h2, ← List.map_map, List.enum_map_fst, ← List.range'_eq_map_range]

theorem displayQuestionImages_eq (q : QuestionRecord) (imgs : List ImageAsset)
    (h1 : q.has_images = true) (h2 : q.images = some imgs) (h3 : imgs ≠ []) :
    displayQuestionImages q
      = renderImageContainers (imgs.filter (fun img => img.type == "question")) := by
  simp [displayQuestionImages, h1, h2, h3]

theorem displayAnswerImages_eq (q : QuestionRecord) (imgs : List ImageAsset)
    (h1 : q.has_images = true) (h2 : q.images = some imgs) (h3 : imgs ≠ []) :
    displayAnswerImages q
      = renderImageContainers (imgs.filter (fun img => img.type == "answer")) := by
  simp [displayAnswerImages, h1, h2, h3]

/-- A text-only record with the given question number, used for concrete
instantiations. -/
def textRec (n : Int) : QuestionRecord :=
  { question_no := n
    question := "q"
    answer := "a"
    has_images := false
    images := none }

/-- A loaded session sitting in exam mode away from position 0, used as the
prior state of concrete load instantiations. -/
def examPriorState : AppState :=
  { questionsData := [textRec 1, textRec 2]
    currentMode := Mode.exam
    currentIndex := 1
    shuffledIndices := [1, 0]
    answerVisible := false
    questionImages := []
    answerImages := [] }

/-- C1: after a successful load of a dataset of length `n`, `shuffledIndices`
is a permutation of `[0, n)` — same multiset, no duplicates, no omissions —
computed by the source's Fisher–Yates loop, and no later non-upload operation
(mode switch, navigation, toggle, random jump) ever recomputes it. -/
theorem randomOrder_permutation_stable (s0 : AppState) (rand : Nat → Nat)
    (D : List QuestionRecord) (hD : D ≠ []) (ops : List Op)
    (hops : ∀ op ∈ ops, op.isUpload = false) :
    (handleFileUpload (UploadInput.parsedArray D) rand s0).shuffledIndices
      = shuffleArray rand (List.range D.length)
    ∧ List.Perm (handleFileUpload (UploadInput.parsedArray D) rand s0).shuffledIndices
        (List.range D.length)
    ∧ (runOps ops (handleFileUpload (UploadInput.parsedArray D) rand s0)).shuffledIndices
      = (handleFileUpload (UploadInput.parsedArray D) rand s0).shuffledIndices := by
  have hlen : 0 < D.length := List.length_pos.mpr hD
  have heq : (handleFileUpload (UploadInput.parsedArray D) rand s0).shuffledIndices
      = shuffleArray rand (List.range D.length) := by
    rw [load_shuffledIndices s0 rand D hlen, sortByQuestionNo_length]
  refine ⟨heq, ?_, runOps_shuffledIndices ops _ hops⟩
  rw [heq]
  exact shuffleArray_perm rand (List.range D.length)

/-- C1 witness: a concrete two-record load followed by a mode switch. -/
theorem randomOrder_permutation_stable_witness :
    (handleFileUpload (UploadInput.parsedArray [textRec 2, textRec 1]) (fun _ => 0)
        examPriorState).shuffledIndices
      = shuffleArray (fun _ => 0) (List.range ([textRec 2, textRec 1] : List QuestionRecord).length)
    ∧ List.Perm (handleFileUpload (UploadInput.parsedArray [textRec 2, textRec 1]) (fun _ => 0)
          examPriorState).shuffledIndices
        (List.range ([textRec 2, textRec 1] : List QuestionRecord).length)
    ∧ (runOps [Op.mode Mode.exam]
        (handleFileUpload (UploadInput.parsedArray [textRec 2, textRec 1]) (fun _ => 0)
          examPriorState)).shuffledIndices
      = (handleFileUpload (UploadInput.parsedArray [textRec 2, textRec 1]) (fun _ => 0)
          examPriorState).shuffledIndices :=
  randomOrder_permutation_stable examPriorState (fun _ => 0) [textRec 2, textRec 1]
    (by simp) [Op.mode Mode.exam]
    (by
      intro op hop
      simp only [List.mem_singleton] at hop
      subst hop
      rfl)

/-- C2 counterexample: loading a valid dataset over an exam-mode session
leaves the mode at `exam`; the claim that a successful load sets the mode to
`basic` is false. -/
theorem load_sets_mode_basic_counterexample :
    (handleFileUpload (UploadInput.parsedArray [textRec 3]) (fun _ => 0)
        examPriorState).currentMode ≠ Mode.basic := by
  decide

/-- C2 (amended): a successful load of a non-empty dataset resets the
position to 0 but leaves the mode unchanged (the mode starts out as `basic`
and changes only via `switchMode`). -/
theorem load_resets_position_keeps_mode (s : AppState) (rand : Nat → Nat)
    (D : List QuestionRecord) (hD : D ≠ []) :
    (handleFileUpload (UploadInput.parsedArray D) rand s).currentIndex = 0
    ∧ (handleFileUpload (UploadInput.parsedArray D) rand s).currentMode = s.currentMode := by
  have hlen : 0 < D.length := List.length_pos.mpr hD
  exact ⟨load_currentIndex s rand D hlen, load_currentMode s rand D hlen⟩

/-- C2 witness: the amended statement at a concrete exam-mode prior state. -/
theorem load_resets_position_keeps_mode_witness :
    (handleFileUpload (UploadInput.parsedArray [textRec 3]) (fun _ => 0)
        examPriorState).currentIndex = 0
    ∧ (handleFileUpload (UploadInput.parsedArray [textRec 3]) (fun _ => 0)
        examPriorState).currentMode = examPriorState.currentMode :=
  load_resets_position_keeps_mode examPriorState (fun _ => 0) [textRec 3] (by simp)

/-- C9: switching mode — to either mode, from any prior mode and position —
always resets the position to 0 and installs the requested mode. -/
theorem switchMode_resets_position (s : AppState) (m : Mode) :
    (switchMode m s).currentIndex = 0 ∧ (switchMode m s).currentMode = m := by
  unfold switchMode
  rw [showCQ_currentIndex, showCQ_currentMode]
  exact ⟨rfl, rfl⟩

/-- C10: a record whose `has_images` flag is off, or whose `images` field is
absent or empty, renders no question images and no answer images — the flag
gates rendering even when a non-empty `images` array is present. -/
theorem gated_images_empty (q : QuestionRecord)
    (h : q.has_images = false ∨ q.images = none ∨ q.images = some []) :
    displayQuestionImages q = [] ∧ displayAnswerImages q = [] := by
  unfold displayQuestionImages displayAnswerImages
  rcases h with h | h | h <;> simp [h]

/-- C10 witness: a record carrying a non-empty `images` array but with
`has_images = false` renders nothing. -/
theorem gated_images_empty_witness :
    displayQuestionImages
      { question_no := 1, question := "q", answer := "a", has_images := false
        images := some [{ type := "question", format := none, base64 := "Zm9v" }] } = []
    ∧ displayAnswerImages
      { question_no := 1, question := "q", answer := "a", has_images := false
        images := some [{ type := "question", format := none, base64 := "Zm9v" }] } = [] :=
  gated_images_empty _ (Or.inl rfl)

/-- C3 counterexample: an upload that parses to the empty array is rejected
with an alert (`올바른 JSON 형식이 아닙니다`), yet the previously loaded dataset is
*not* left intact — `questionsData = JSON.parse(...)` ran before the
validation, so the loaded dataset has been replaced by the empty array. -/
theorem failed_load_overwrites_dataset_counterexample :
    uploadShowsAlert (UploadInput.parsedArray []) = true
    ∧ (handleFileUpload (UploadInput.parsedArray []) (fun _ => 0)
        examPriorState).questionsData ≠ examPriorState.questionsData := by
  refine ⟨rfl, ?_⟩
  decide

/-- C3 (amended): a load attempt whose input does not parse reports the error
and leaves the whole session state unchanged; a load attempt that parses to
an empty array reports the error and leaves the mode, position, random order
and rendered containers unchanged, but has already overwritten `questionsData`
with the parsed (empty) value, because the handler assigns the parse result
before validating it. -/
theorem upload_failure_preserves_state (s : AppState) (rand : Nat → Nat) :
    (handleFileUpload UploadInput.parseFailure rand s = s
      ∧ uploadShowsAlert UploadInput.parseFailure = true)
    ∧ ((handleFileUpload (UploadInput.parsedArray []) rand s).currentMode = s.currentMode
      ∧ (handleFileUpload (UploadInput.parsedArray []) rand s).currentIndex = s.currentIndex
      ∧ (handleFileUpload (UploadInput.parsedArray []) rand s).shuffledIndices
        = s.shuffledIndices
      ∧ (handleFileUpload (UploadInput.parsedArray []) rand s).answerVisible = s.answerVisible
      ∧ (handleFileUpload (UploadInput.parsedArray []) rand s).answerImages = s.answerImages
      ∧ (handleFileUpload (UploadInput.parsedArray []) rand s).questionsData = []
      ∧ uploadShowsAlert (UploadInput.parsedArray []) = true) :=
  ⟨⟨rfl, rfl⟩, ⟨rfl, rfl, rfl, rfl, rfl, rfl, rfl⟩⟩

/-- C4: starting from any successful load and applying any sequence of
`navigateQuestion` calls, the position stays within `[0, len(D))` (it is a
natural number, so `0 ≤ p` holds by type); `navigate(-1)` at position 0 and
`navigate(+1)` at the last position leave the state entirely unchanged — no
wraparound. -/
theorem navigation_stays_in_bounds (s0 : AppState) (rand : Nat → Nat)
    (D : List QuestionRecord) (hD : D ≠ []) (ds : List Int) :
    (navRun ds (handleFileUpload (UploadInput.parsedArray D) rand s0)).currentIndex
      < (navRun ds (handleFileUpload (UploadInput.parsedArray D) rand s0)).questionsData.length
    ∧ ((navRun ds (handleFileUpload (UploadInput.parsedArray D) rand s0)).currentIndex = 0 →
        navigateQuestion (-1)
            (navRun ds (handleFileUpload (UploadInput.parsedArray D) rand s0))
          = navRun ds (handleFileUpload (UploadInput.parsedArray D) rand s0))
    ∧ ((navRun ds (handleFileUpload (UploadInput.parsedArray D) rand s0)).currentIndex
          = (navRun ds (handleFileUpload (UploadInput.parsedArray D) rand s0)).questionsData.length - 1 →
        navigateQuestion 1
            (navRun ds (handleFileUpload (UploadInput.parsedArray D) rand s0))
          = navRun ds (handleFileUpload (UploadInput.parsedArray D) rand s0)) := by
  have hlen : 0 < D.length := List.length_pos.mpr hD
  have hbase : (handleFileUpload (UploadInput.parsedArray D) rand s0).currentIndex
      < (handleFileUpload (UploadInput.parsedArray D) rand s0).questionsData.length := by
    rw [load_currentIndex s0 rand D hlen, load_questionsData s0 rand D hlen,
      sortByQuestionNo_length]
    exact hlen
  have hrun := navRun_bound ds _ hbase
  refine ⟨hrun, ?_, ?_⟩
  · intro hp
    have hcond : ¬ (0 ≤ ((navRun ds (handleFileUpload (UploadInput.parsedArray D) rand s0)).currentIndex : Int) + (-1)
        ∧ ((navRun ds (handleFileUpload (UploadInput.parsedArray D) rand s0)).currentIndex : Int) + (-1)
          < ((navRun ds (handleFileUpload (UploadInput.parsedArray D) rand s0)).questionsData.length : Int)) := by
      rw [hp]
      omega
    simp only [navigateQuestion]
    rw [if_neg hcond]
  · intro hp
    have hcond : ¬ (0 ≤ ((navRun ds (handleFileUpload (UploadInput.parsedArray D) rand s0)).currentIndex : Int) + 1
        ∧ ((navRun ds (handleFileUpload (UploadInput.parsedArray D) rand s0)).currentIndex : Int) + 1
          < ((navRun ds (handleFileUpload (UploadInput.parsedArray D) rand s0)).questionsData.length : Int)) := by
      rw [hp]
      omega
    simp only [navigateQuestion]
    rw [if_neg hcond]

/-- C4 witness: a concrete two-record load followed by navigation moves that
bump into both boundaries. -/
theorem navigation_stays_in_bounds_witness :
    (navRun [1, 1, -1]
        (handleFileUpload (UploadInput.parsedArray [textRec 2, textRec 1]) (fun _ => 0)
          initialState)).currentIndex
      < (navRun [1, 1, -1]
        (handleFileUpload (UploadInput.parsedArray [textRec 2, textRec 1]) (fun _ => 0)
          initialState)).questionsData.length
    ∧ ((navRun [1, 1, -1]
          (handleFileUpload (UploadInput.parsedArray [textRec 2, textRec 1]) (fun _ => 0)
            initialState)).currentIndex = 0 →
        navigateQuestion (-1)
            (navRun [1, 1, -1]
              (handleFileUpload (UploadInput.parsedArray [textRec 2, textRec 1]) (fun _ => 0)
                initialState))
          = navRun [1, 1, -1]
            (handleFileUpload (UploadInput.parsedArray [textRec 2, textRec 1]) (fun _ => 0)
              initialState))
    ∧ ((navRun [1, 1, -1]
          (handleFileUpload (UploadInput.parsedArray [textRec 2, textRec 1]) (fun _ => 0)
            initialState)).currentIndex
          = (navRun [1, 1, -1]
            (handleFileUpload (UploadInput.parsedArray [textRec 2, textRec 1]) (fun _ => 0)
              initialState)).questionsData.length - 1 →
        navigateQuestion 1
            (navRun [1, 1, -1]
              (handleFileUpload (UploadInput.parsedArray [textRec 2, textRec 1]) (fun _ => 0)
                initialState))
          = navRun [1, 1, -1]
            (handleFileUpload (UploadInput.parsedArray [textRec 2, textRec 1]) (fun _ => 0)
              initialState)) :=
  navigation_stays_in_bounds initialState (fun _ => 0) [textRec 2, textRec 1] (by simp) [1, 1, -1]

/-- A loaded two-record session in exam mode at position 0, whose shuffle
order `[1, 0]` differs from dataset order. -/
def examViewState : AppState :=
  { questionsData := [textRec 1, textRec 2]
    currentMode := Mode.exam
    currentIndex := 0
    shuffledIndices := [1, 0]
    answerVisible := false
    questionImages := []
    answerImages := [] }

/-- C5: the record the session resolves for display and for answer reveal is
`dataset[position]` in basic mode and `dataset[randomOrder[position]]` in exam
mode: the rendered question images come from exactly that record, and so do
the answer images revealed by `toggleAnswer`. -/
theorem resolveCurrentRecord_spec (s : AppState) (q : QuestionRecord)
    (hq : s.questionsData[currentQuestionIdx s]? = some q)
    (hv : s.answerVisible = false) :
    (s.currentMode = Mode.basic → s.questionsData[s.currentIndex]? = some q)
    ∧ (s.currentMode = Mode.exam →
        s.questionsData[s.shuffledIndices.getD s.currentIndex 0]? = some q)
    ∧ (showCurrentQuestion s).questionImages = displayQuestionImages q
    ∧ (toggleAnswer s).answerImages = displayAnswerImages q := by
  have hlen : ¬ s.questionsData.length = 0 := by
    intro h0
    rw [List.length_eq_zero] at h0
    rw [h0] at hq
    simp at hq
  refine ⟨?_, ?_, ?_, ?_⟩
  · intro hm
    have hidx : currentQuestionIdx s = s.currentIndex := by
      unfold currentQuestionIdx
      rw [hm]
    rw [← hidx]
    exact hq
  · intro hm
    have hidx : currentQuestionIdx s = s.shuffledIndices.getD s.currentIndex 0 := by
      unfold currentQuestionIdx
      rw [hm]
    rw [← hidx]
    exact hq
  · unfold showCurrentQuestion
    rw [if_neg hlen, hq]
  · unfold toggleAnswer
    rw [if_neg (by rw [hv]; exact Bool.false_ne_true), hq]

/-- C5 witness: in the exam-mode session above, position 0 resolves through
`shuffledIndices` to the record with `question_no = 2`. -/
theorem resolveCurrentRecord_spec_witness :
    (examViewState.currentMode = Mode.basic →
        examViewState.questionsData[examViewState.currentIndex]? = some (textRec 2))
    ∧ (examViewState.currentMode = Mode.exam →
        examViewState.questionsData[examViewState.shuffledIndices.getD
          examViewState.currentIndex 0]? = some (textRec 2))
    ∧ (showCurrentQuestion examViewState).questionImages = displayQuestionImages (textRec 2)
    ∧ (toggleAnswer examViewState).answerImages = displayAnswerImages (textRec 2) :=
  resolveCurrentRecord_spec examViewState (textRec 2) rfl rfl

/-- C6: loading a valid dataset with pairwise distinct `question_no` values
reorders exactly the given records (a permutation) into strictly ascending
`question_no` order. -/
theorem load_sorts_dataset (s : AppState) (rand : Nat → Nat) (D : List QuestionRecord)
    (hD : D ≠ []) (hU : (D.map QuestionRecord.question_no).Nodup) :
    List.Perm (handleFileUpload (UploadInput.parsedArray D) rand s).questionsData D
    ∧ List.Pairwise (fun a b => a.question_no < b.question_no)
        (handleFileUpload (UploadInput.parsedArray D) rand s).questionsData := by
  have hlen : 0 < D.length := List.length_pos.mpr hD
  rw [load_questionsData s rand D hlen]
  have hperm := sortByQuestionNo_perm D
  refine ⟨hperm, ?_⟩
  have hsorted : List.Pairwise qnoLE (sortByQuestionNo D) :=
    List.sorted_insertionSort qnoLE D
  have hne : List.Pairwise (fun a b => a.question_no ≠ b.question_no) (sortByQuestionNo D) := by
    have h1 : ((sortByQuestionNo D).map QuestionRecord.question_no).Nodup :=
      ((hperm.map QuestionRecord.question_no).nodup_iff).mpr hU
    rw [List.Nodup, List.pairwise_map] at h1
    exact h1
  exact (hsorted.and hne).imp (fun h => lt_of_le_of_ne h.1 h.2)

/-- C6 witness: loading records numbered `[2, 1]` yields them in order
`[1, 2]`. -/
theorem load_sorts_dataset_witness :
    List.Perm (handleFileUpload (UploadInput.parsedArray [textRec 2, textRec 1]) (fun _ => 0)
        initialState).questionsData [textRec 2, textRec 1]
    ∧ List.Pairwise (fun a b => a.question_no < b.question_no)
        (handleFileUpload (UploadInput.parsedArray [textRec 2, textRec 1]) (fun _ => 0)
          initialState).questionsData :=
  load_sorts_dataset initialState (fun _ => 0) [textRec 2, textRec 1] (by simp) (by decide)

/-- C7: `toggleAnswer` is an involution on the answer-visibility state —
toggling twice restores the original visibility — and on every reachable
state a hidden answer section has an empty answer-image container: the
invariant holds initially and every operation preserves it. -/
theorem toggleAnswer_involution (s t : AppState) (op : Op) (ht : answerInvariant t) :
    (toggleAnswer (toggleAnswer s)).answerVisible = s.answerVisible
    ∧ answerInvariant initialState
    ∧ answerInvariant (step op t) := by
  refine ⟨?_, ?_, answerInvariant_step op t ht⟩
  · rw [toggleAnswer_visible, toggleAnswer_visible, Bool.not_not]
  · intro _
    rfl

/-- C7 witness: the involution and the invariant at the concrete exam-mode
session and a concrete toggle. -/
theorem toggleAnswer_involution_witness :
    (toggleAnswer (toggleAnswer examViewState)).answerVisible = examViewState.answerVisible
    ∧ answerInvariant initialState
    ∧ answerInvariant (step Op.toggle examViewState) :=
  toggleAnswer_involution examViewState examViewState Op.toggle (fun _ => rfl)

/-- C8: for a record with `has_images = true` and a non-empty `images` array,
rendering the question shows exactly the `type = "question"` subsequence, in
original order, with 1-based ordinals; the answer-image container is empty
until reveal, and after `toggleAnswer` it holds exactly the `type = "answer"`
subsequence, in order, with 1-based ordinals. -/
theorem images_rendered_by_role (s : AppState) (q : QuestionRecord) (imgs : List ImageAsset)
    (hq : s.questionsData[currentQuestionIdx s]? = some q)
    (h1 : q.has_images = true) (h2 : q.images = some imgs) (h3 : imgs ≠ []) :
    ((showCurrentQuestion s).questionImages.map RenderedImage.asset
        = imgs.filter (fun img => img.type == "question")
      ∧ (showCurrentQuestion s).questionImages.map RenderedImage.ordinal
        = List.range' 1 (imgs.filter (fun img => img.type == "question")).length)
    ∧ (showCurrentQuestion s).answerImages = []
    ∧ ((toggleAnswer (showCurrentQuestion s)).answerImages.map RenderedImage.asset
        = imgs.filter (fun img => img.type == "answer")
      ∧ (toggleAnswer (showCurrentQuestion s)).answerImages.map RenderedImage.ordinal
        = List.range' 1 (imgs.filter (fun img => img.type == "answer")).length) := by
  have hlen : ¬ s.questionsData.length = 0 := by
    intro h0
    rw [List.length_eq_zero] at h0
    rw [h0] at hq
    simp at hq
  have hshowQ : (showCurrentQuestion s).questionImages = displayQuestionImages q := by
    unfold showCurrentQuestion
    rw [if_neg hlen, hq]
  have hshowA : (showCurrentQuestion s).answerImages = [] := by
    unfold showCurrentQuestion
    rw [if_neg hlen, hq]
  have hshowV : (showCurrentQuestion s).answerVisible = false := by
    unfold showCurrentQuestion
    rw [if_neg hlen, hq]
  have hidx : currentQuestionIdx (showCurrentQuestion s) = currentQuestionIdx s := by
    unfold currentQuestionIdx
    rw [showCQ_currentMode, showCQ_currentIndex, showCQ_shuffledIndices]
  have hq' : (showCurrentQuestion s).questionsData[currentQuestionIdx
      (showCurrentQuestion s)]? = some q := by
    rw [showCQ_questionsData, hidx]
    exact hq
  have htog : (toggleAnswer (showCurrentQuestion s)).answerImages
      = displayAnswerImages q := by
    unfold toggleAnswer
    rw [if_neg (by rw [hshowV]; exact Bool.false_ne_true), hq']
  have hQ := displayQuestionImages_eq q imgs h1 h2 h3
  have hA := displayAnswerImages_eq q imgs h1 h2 h3
  refine ⟨⟨?_, ?_⟩, hshowA, ?_, ?_⟩
  · rw [hshowQ, hQ, renderImageContainers_assets]
  · rw [hshowQ, hQ, renderImageContainers_ordinals]
  · rw [htog, hA, renderImageContainers_assets]
  · rw [htog, hA, renderImageContainers_ordinals]

/-- A question-side image, an answer-side image and a second question-side
image, in that order, plus the record and loaded session carrying them. -/
def imgQ1 : ImageAsset := { type := "question", format := none, base64 := "cTE=" }

def imgA1 : ImageAsset := { type := "answer", format := none, base64 := "YTE=" }

def imgQ2 : ImageAsset := { type := "question", format := some "jpeg", base64 := "cTI=" }

def imgRec : QuestionRecord :=
  { question_no := 1
    question := "q"
    answer := "a"
    has_images := true
    images := some [imgQ1, imgA1, imgQ2] }

def imgState : AppState :=
  { questionsData := [imgRec]
    currentMode := Mode.basic
    currentIndex := 0
    shuffledIndices := [0]
    answerVisible := false
    questionImages := []
    answerImages := [] }

/-- C8 witness: with images `[question, answer, question]`, the question side
renders exactly the two question images with ordinals 1 and 2, nothing is in
the answer container before reveal, and after reveal exactly the one answer
image with ordinal 1 is rendered. -/
theorem images_rendered_by_role_witness :
    ((showCurrentQuestion imgState).questionImages.map RenderedImage.asset = [imgQ1, imgQ2]
      ∧ (showCurrentQuestion imgState).questionImages.map RenderedImage.ordinal = [1, 2])
    ∧ (showCurrentQuestion imgState).answerImages = []
    ∧ ((toggleAnswer (showCurrentQuestion imgState)).answerImages.map RenderedImage.asset
        = [imgA1]
      ∧ (toggleAnswer (showCurrentQuestion imgState)).answerImages.map RenderedImage.ordinal
        = [1]) :=
  images_rendered_by_role imgState imgRec [imgQ1, imgA1, imgQ2] rfl rfl rfl (by simp)
